import Mathlib

/-!
Verification of the OpenGL renderer core of this repository
(modules/video_output/opengl/renderer.c and fragment_shaders.c).

Modelling conventions:
* C `float`/`double` arithmetic is embedded in exact rationals (`ℚ`);
  rounding of IEEE arithmetic is out of scope, all the matrix constants
  and operations of the source are exact rational expressions.
* libm functions (`tanf`, `atanf`, `sinf`, `sqrtf`, `sincosf`) and the
  VLC core helpers (`vlc_viewpoint_reverse`, `vlc_viewpoint_to_4x4`,
  `M_PI`) are not part of the translated sources; they are abstracted as
  parameters of a `TrigOps` record.
* 4x4 matrices are flat arrays in column-major order, as in the C code,
  embedded as `Fin 16 → ℚ`; 3x3 matrices as `Fin 9 → ℚ`.
-/

namespace VlcGl

/-- A VLC fourcc code, built from four characters as a 32-bit little-endian
integer (mirrors the `VLC_FOURCC` macro). -/
def vlc_fourcc (a b c d : Char) : ℕ :=
  a.toNat + 256 * b.toNat + 65536 * c.toNat + 16777216 * d.toNat

def VLC_CODEC_UYVY : ℕ := vlc_fourcc 'U' 'Y' 'V' 'Y'
def VLC_CODEC_YUYV : ℕ := vlc_fourcc 'Y' 'U' 'Y' '2'
def VLC_CODEC_VYUY : ℕ := vlc_fourcc 'V' 'Y' 'U' 'Y'
def VLC_CODEC_YVYU : ℕ := vlc_fourcc 'Y' 'V' 'Y' 'U'
def VLC_CODEC_YV12 : ℕ := vlc_fourcc 'Y' 'V' '1' '2'
def VLC_CODEC_YV9 : ℕ := vlc_fourcc 'Y' 'V' 'U' '9'
def VLC_CODEC_NV21 : ℕ := vlc_fourcc 'N' 'V' '2' '1'
def VLC_CODEC_P010 : ℕ := vlc_fourcc 'P' '0' '1' '0'
def VLC_CODEC_P016 : ℕ := vlc_fourcc 'P' '0' '1' '6'
def VLC_CODEC_XYZ12 : ℕ := vlc_fourcc 'X' 'Y' '1' '2'
def VLC_CODEC_I420_10L : ℕ := vlc_fourcc 'I' '0' 'A' 'L'
def VLC_CODEC_Y211 : ℕ := vlc_fourcc 'Y' '2' '1' '1'

/-- `video_color_space_t` (the values used by the switch in
`init_conv_matrix`). -/
inductive video_color_space_t
  | COLOR_SPACE_UNDEF
  | COLOR_SPACE_BT601
  | COLOR_SPACE_BT709
  | COLOR_SPACE_BT2020
  deriving DecidableEq, Repr

/-- `video_color_range_t`. -/
inductive video_color_range_t
  | COLOR_RANGE_UNDEF
  | COLOR_RANGE_FULL
  | COLOR_RANGE_LIMITED
  deriving DecidableEq, Repr

/-- `video_projection_mode_t`. -/
inductive video_projection_mode_t
  | PROJECTION_MODE_RECTANGULAR
  | PROJECTION_MODE_EQUIRECTANGULAR
  | PROJECTION_MODE_CUBEMAP_LAYOUT_STANDARD
  deriving DecidableEq, Repr

open video_color_space_t video_color_range_t video_projection_mode_t

/-- The fields of `vlc_chroma_description_t` read by this core. -/
structure vlc_chroma_description_t where
  plane_count : ℕ
  pixel_size : ℕ
  pixel_bits : ℕ
  deriving DecidableEq, Repr

/-- A 4x4 matrix as a flat 16-entry column-major array, as in the C code. -/
abbrev M4 : Type := Fin 16 → ℚ

/-- A 3x3 matrix as a flat 9-entry column-major array. -/
abbrev M3 : Type := Fin 9 → ℚ

/-- Builds an `M4` from a 16-entry list (array literal order). -/
def m4 (l : List ℚ) : M4 := fun i => l.getD i 0

/-- Builds an `M3` from a 9-entry list (array literal order). -/
def m3 (l : List ℚ) : M3 := fun i => l.getD i 0

/-- The constant `identity` array of renderer.c. -/
def identityM4 : M4 :=
  m4 [1, 0, 0, 0,
      0, 1, 0, 0,
      0, 0, 1, 0,
      0, 0, 0, 1]

/-- `MATRIX_COLOR_RANGE_LIMITED` (a 3-row × 4-column array in row-major
order, `range_matrix[k*4 + x]` indexing row `k`, column `x`). -/
def MATRIX_COLOR_RANGE_LIMITED : List ℚ :=
  [255/219,       0,       0, -(255/219) * (16/255),
         0, 255/224,       0, -(255/224) * (128/255),
         0,       0, 255/224, -(255/224) * (128/255)]

/-- `MATRIX_COLOR_RANGE_FULL`. -/
def MATRIX_COLOR_RANGE_FULL : List ℚ :=
  [1, 0, 0, 0,
   0, 1, 0, -(128/255),
   0, 0, 1, -(128/255)]

/-- `MATRIX_YUV_TO_RGB_(KR, KG, KB)`: the 3x3 space matrix in row-major
order built from the luma weights. -/
def MATRIX_YUV_TO_RGB_ (KR KG KB : ℚ) : List ℚ :=
  [1,                            0,              2*(1 - KR),
   1, -2*(1 - KB) * (KB / KG), -2*(1 - KR) * (KR / KG),
   1,              2*(1 - KB),                        0]

/-- `MATRIX_YUV_TO_RGB(KR, KB)` with `KG = 1 - KR - KB`. -/
def MATRIX_YUV_TO_RGB (KR KB : ℚ) : List ℚ :=
  MATRIX_YUV_TO_RGB_ KR (1 - KR - KB) KB

def MATRIX_BT601 : List ℚ := MATRIX_YUV_TO_RGB (299/1000) (114/1000)
def MATRIX_BT709 : List ℚ := MATRIX_YUV_TO_RGB (2126/10000) (722/10000)
def MATRIX_BT2020 : List ℚ := MATRIX_YUV_TO_RGB (2627/10000) (593/10000)

/-- The space matrix selected by the switch in `init_conv_matrix`
(default branch selects BT709). -/
def space_matrix_of (color_space : video_color_space_t) : List ℚ :=
  match color_space with
  | COLOR_SPACE_BT601 => MATRIX_BT601
  | COLOR_SPACE_BT2020 => MATRIX_BT2020
  | _ => MATRIX_BT709

/-- The range matrix selected in `init_conv_matrix`. -/
def range_matrix_of (color_range : video_color_range_t) : List ℚ :=
  match color_range with
  | COLOR_RANGE_FULL => MATRIX_COLOR_RANGE_FULL
  | _ => MATRIX_COLOR_RANGE_LIMITED

/-- `init_conv_matrix`: multiplies the space matrix by the range matrix
and stores the result in column-major order, with the extra fixed row
`conv[3] = conv[7] = conv[11] = 0`, `conv[15] = 1`. -/
def init_conv_matrix (color_space : video_color_space_t)
    (color_range : video_color_range_t) : M4 :=
  let space_matrix := space_matrix_of color_space
  let range_matrix := range_matrix_of color_range
  fun i =>
    let x := (i : ℕ) / 4
    let y := (i : ℕ) % 4
    if y = 3 then (if x = 3 then 1 else 0)
    else ((List.range 3).map
            (fun k => space_matrix.getD (y * 3 + k) 0
                      * range_matrix.getD (k * 4 + x) 0)).sum

/-- `yuv_range_correction` of `renderer_yuv_base_init`:
`(float)((1 << 16) - 1) / ((1 << desc->pixel_bits) - 1)`. -/
def yuv_range_correction (desc : vlc_chroma_description_t) : ℚ :=
  ((2 ^ 16 : ℚ) - 1) / ((2 ^ desc.pixel_bits : ℚ) - 1)

/-- The conversion matrix of `renderer_yuv_base_init` after the
low-bit-depth scaling step (the loop `for (i = 0; i < 4*3; ++i)
matrix[i] *= yuv_range_correction`, which touches the first 12 entries
of the column-major array) and before the U/V swap step, with the color
range as an explicit parameter. -/
def scaled_conv_matrix_range (chroma : ℕ) (desc : vlc_chroma_description_t)
    (yuv_space : video_color_space_t) (range : video_color_range_t) : M4 :=
  let matrix := init_conv_matrix yuv_space range
  if desc.pixel_size = 2 ∧ chroma ≠ VLC_CODEC_P010 ∧ chroma ≠ VLC_CODEC_P016
  then
    let r := yuv_range_correction desc
    fun i => if (i : ℕ) < 4 * 3 then matrix i * r else matrix i
  else matrix

/-- The scaling step at the fixed `COLOR_RANGE_LIMITED` of
`renderer_yuv_base_init`. -/
def scaled_conv_matrix (chroma : ℕ) (desc : vlc_chroma_description_t)
    (yuv_space : video_color_space_t) : M4 :=
  scaled_conv_matrix_range chroma desc yuv_space COLOR_RANGE_LIMITED

/-- The index permutation realising the U/V swap of
`renderer_yuv_base_init`: columns 1 and 2 of the column-major array
(entries 4..7 and 8..11) are exchanged. -/
def swap_uv_idx (i : Fin 16) : Fin 16 :=
  if h : 4 ≤ (i : ℕ) ∧ (i : ℕ) < 8 then ⟨(i : ℕ) + 4, by omega⟩
  else if h' : 8 ≤ (i : ℕ) ∧ (i : ℕ) < 12 then ⟨(i : ℕ) - 4, by omega⟩
  else i

/-- The U/V swap transform on a conversion matrix (the three `memcpy`
calls exchanging columns 1 and 2). -/
def swapUV (matrix : M4) : M4 := fun i => matrix (swap_uv_idx i)

/-- Whether `renderer_yuv_base_init` swaps the U and V components. -/
def swap_uv_chroma (chroma : ℕ) : Bool :=
  chroma = VLC_CODEC_YV12 || chroma = VLC_CODEC_YV9 || chroma = VLC_CODEC_NV21

/-- `renderer_yuv_base_init` with the color range as an explicit
parameter of the matrix computation (the body of the C function with
`range` left free). -/
def renderer_yuv_base_init_range (chroma : ℕ)
    (desc : vlc_chroma_description_t) (yuv_space : video_color_space_t)
    (range : video_color_range_t) : M4 :=
  let matrix := scaled_conv_matrix_range chroma desc yuv_space range
  if swap_uv_chroma chroma then swapUV matrix else matrix

/-- The conversion matrix computed by `renderer_yuv_base_init`: the C
function fixes `const video_color_range_t range = COLOR_RANGE_LIMITED;`
("the current implementation always converts from limited to full
range"). -/
def renderer_yuv_base_init (chroma : ℕ) (desc : vlc_chroma_description_t)
    (yuv_space : video_color_space_t) : M4 :=
  renderer_yuv_base_init_range chroma desc yuv_space COLOR_RANGE_LIMITED

/-- The fields of `video_format_t` used by the fragment-shader set-up
path (`BuildFragmentShader` reads `interop->sw_fmt.i_chroma` and
`interop->sw_fmt.space`; the format also carries a color range, which
that path never reads). -/
structure video_format_t where
  i_chroma : ℕ
  space : video_color_space_t
  color_range : video_color_range_t
  deriving DecidableEq

/-- The conversion matrix installed for a YUV format by the
fragment-shader generator: `BuildFragmentShader` passes
`interop->sw_fmt.i_chroma` and `interop->sw_fmt.space` to
`opengl_fragment_shader_init`, which calls `renderer_yuv_base_init`. -/
def installed_conv_matrix (fmt : video_format_t)
    (desc : vlc_chroma_description_t) : M4 :=
  renderer_yuv_base_init fmt.i_chroma desc fmt.space

/-! ### Geometry builders (renderer.c) -/

/-- `SPHERE_RADIUS`. -/
def SPHERE_RADIUS : ℚ := 1

/-- The CPU-side arrays produced by one of the three geometry builders
(`BuildRectangle`, `BuildSphere`, `BuildCube`): flat vertex, texture
coordinate and index arrays plus the two counts. Allocation failure
(`VLC_ENOMEM`) is not modelled; the value is the success result. -/
structure GlMesh where
  vertexCoord : List ℚ
  textureCoord : List ℚ
  nbVertices : ℕ
  indices : List ℕ
  nbIndices : ℕ

/-- Abstraction of the external math functions used by renderer.c:
libm (`tanf`, `atanf`, `sinf`, `sqrtf`, `sincosf`, the constant `M_PI`)
and the VLC core viewpoint helpers (`vlc_viewpoint_reverse`,
`vlc_viewpoint_to_4x4`), none of which are part of the sources under
verification. The embedding is parametric in this record. -/
structure vlc_viewpoint_t where
  yaw : ℚ
  pitch : ℚ
  roll : ℚ
  fov : ℚ
  deriving DecidableEq

structure TrigOps where
  pi : ℚ
  tanf : ℚ → ℚ
  atanf : ℚ → ℚ
  sinf : ℚ → ℚ
  sqrtf : ℚ → ℚ
  /-- `sincosf t` returns the pair `(sin t, cos t)`. -/
  sincosf : ℚ → ℚ × ℚ
  viewpoint_reverse : vlc_viewpoint_t → vlc_viewpoint_t
  viewpoint_to_4x4 : vlc_viewpoint_t → M4

/-- One vertex of `BuildSphere`, as stored (the triple written at
`off1`, `off1+1`, `off1+2`): spherical-to-Cartesian conversion of
`theta = lat*M_PI/nbLatBands`, `phi = lon*2*M_PI/nbLonBands`, each
coordinate multiplied by `SPHERE_RADIUS`. -/
def sphereVertex (ops : TrigOps) (nbLatBands nbLonBands lat lon : ℕ) :
    ℚ × ℚ × ℚ :=
  let theta := (lat : ℚ) * ops.pi / (nbLatBands : ℚ)
  let sc1 := ops.sincosf theta
  let sinTheta := sc1.1
  let cosTheta := sc1.2
  let phi := (lon : ℚ) * 2 * ops.pi / (nbLonBands : ℚ)
  let sc2 := ops.sincosf phi
  let sinPhi := sc2.1
  let cosPhi := sc2.2
  let x := cosPhi * sinTheta
  let y := cosTheta
  let z := sinPhi * sinTheta
  (SPHERE_RADIUS * x, SPHERE_RADIUS * y, SPHERE_RADIUS * z)

/-- The UV pair of `BuildSphere` for one vertex (written at `off2`,
`off2+1`). -/
def sphereUV (nbLatBands nbLonBands lat lon : ℕ) : ℚ × ℚ :=
  ((lon : ℚ) / (nbLonBands : ℚ), (lat : ℚ) / (nbLatBands : ℚ))

/-- The six indices of `BuildSphere` for one quad (written at `off` ..
`off+5`; the offset formula of the C code uses `nbLatBands` where both
band counts are equal). -/
def sphereQuadIndices (nbLonBands lat lon : ℕ) : List ℕ :=
  let first := lat * (nbLonBands + 1) + lon
  let second := first + nbLonBands + 1
  [first, second, first + 1, second, second + 1, first + 1]

/-- `BuildSphere` with the band counts as parameters (the function body
with `nbLatBands` and `nbLonBands` left free). -/
def BuildSphereBands (ops : TrigOps) (nbLatBands nbLonBands : ℕ) : GlMesh :=
  { nbVertices := (nbLatBands + 1) * (nbLonBands + 1)
    nbIndices := nbLatBands * nbLonBands * 3 * 2
    vertexCoord :=
      (List.range (nbLatBands + 1)).flatMap fun lat =>
        (List.range (nbLonBands + 1)).flatMap fun lon =>
          let v := sphereVertex ops nbLatBands nbLonBands lat lon
          [v.1, v.2.1, v.2.2]
    textureCoord :=
      (List.range (nbLatBands + 1)).flatMap fun lat =>
        (List.range (nbLonBands + 1)).flatMap fun lon =>
          let uv := sphereUV nbLatBands nbLonBands lat lon
          [uv.1, uv.2]
    indices :=
      (List.range nbLatBands).flatMap fun lat =>
        (List.range nbLonBands).flatMap fun lon =>
          sphereQuadIndices nbLonBands lat lon }

/-- `BuildSphere`: the C function fixes `nbLatBands = nbLonBands = 128`. -/
def BuildSphere (ops : TrigOps) : GlMesh := BuildSphereBands ops 128 128

/-- `BuildCube`: 24 vertices, 48 texture coordinates (the `tex` array
built from the 4x3 atlas columns `col = [0, 1/3, 2/3, 1]` and rows
`row = [0, 1/2, 1]` with the per-axis paddings), 36 indices. -/
def BuildCube (padW padH : ℚ) : GlMesh :=
  { nbVertices := 4 * 6
    nbIndices := 6 * 6
    vertexCoord :=
      [-1,  1, -1,   -1, -1, -1,    1,  1, -1,    1, -1, -1,  -- front
       -1,  1,  1,   -1, -1,  1,    1,  1,  1,    1, -1,  1,  -- back
       -1,  1, -1,   -1, -1, -1,   -1,  1,  1,   -1, -1,  1,  -- left
        1,  1, -1,    1, -1, -1,    1,  1,  1,    1, -1,  1,  -- right
       -1, -1,  1,   -1, -1, -1,    1, -1,  1,    1, -1, -1,  -- bottom
       -1,  1,  1,   -1,  1, -1,    1,  1,  1,    1,  1, -1]  -- top
    textureCoord :=
      [1/3 + padW, 1/2 + padH,  1/3 + padW, 1 - padH,   -- front
       2/3 - padW, 1/2 + padH,  2/3 - padW, 1 - padH,
       1 - padW,   1/2 + padH,  1 - padW,   1 - padH,   -- back
       2/3 + padW, 1/2 + padH,  2/3 + padW, 1 - padH,
       2/3 - padW, 0 + padH,    2/3 - padW, 1/2 - padH, -- left
       1/3 + padW, 0 + padH,    1/3 + padW, 1/2 - padH,
       0 + padW,   0 + padH,    0 + padW,   1/2 - padH, -- right
       1/3 - padW, 0 + padH,    1/3 - padW, 1/2 - padH,
       0 + padW,   1 - padH,    0 + padW,   1/2 + padH, -- bottom
       1/3 - padW, 1 - padH,    1/3 - padW, 1/2 + padH,
       2/3 + padW, 0 + padH,    2/3 + padW, 1/2 - padH, -- top
       1 - padW,   0 + padH,    1 - padW,   1/2 - padH]
    indices :=
      [0, 1, 2,     2, 1, 3,    -- front
       6, 7, 4,     4, 7, 5,    -- back
       10, 11, 8,   8, 11, 9,   -- left
       12, 13, 14,  14, 13, 15, -- right
       18, 19, 16,  16, 19, 17, -- bottom
       20, 21, 22,  22, 21, 23] -- top
  }

/-- `BuildRectangle`. -/
def BuildRectangle : GlMesh :=
  { nbVertices := 4
    nbIndices := 6
    vertexCoord := [-1, 1, -1,  -1, -1, -1,  1, 1, -1,  1, -1, -1]
    textureCoord := [0, 0,  0, 1,  1, 0,  1, 1]
    indices := [0, 1, 2,  2, 1, 3] }

/-! ### TransformMatrixEngine and viewpoint handling (renderer.c) -/

/-- `getZoomMatrix`: translation by `zoom` along the view axis
(column-major). -/
def getZoomMatrix (zoom : ℚ) : M4 :=
  m4 [1, 0, 0, 0,
      0, 1, 0, 0,
      0, 0, 1, 0,
      0, 0, zoom, 1]

/-- `getProjectionMatrix`: standard perspective matrix with
`zFar = 1000`, `zNear = 0.01`, `f = 1 / tanf(fovy / 2)`. -/
def getProjectionMatrix (ops : TrigOps) (sar fovy : ℚ) : M4 :=
  let zFar : ℚ := 1000
  let zNear : ℚ := 1/100
  let f := 1 / ops.tanf (fovy / 2)
  m4 [f / sar, 0, 0, 0,
      0, f, 0, 0,
      0, 0, (zNear + zFar) / (zNear - zFar), -1,
      0, 0, (2 * zNear * zFar) / (zNear - zFar), 0]

/-- The renderer fields used by the viewpoint/projection path of
renderer.c. -/
structure RendererState where
  f_sar : ℚ
  f_fovx : ℚ
  f_fovy : ℚ
  f_z : ℚ
  vp : vlc_viewpoint_t
  fmt_projection_mode : video_projection_mode_t
  ProjectionMatrix : M4
  ZoomMatrix : M4
  ViewMatrix : M4

/-- `getViewpointMatrixes`: for the equirectangular and standard-cubemap
projection modes computes projection, zoom and view from the renderer
state; for any other mode copies the `identity` array into all three. -/
def getViewpointMatrixes (ops : TrigOps) (renderer : RendererState)
    (projection_mode : video_projection_mode_t) : RendererState :=
  if projection_mode = PROJECTION_MODE_EQUIRECTANGULAR
      ∨ projection_mode = PROJECTION_MODE_CUBEMAP_LAYOUT_STANDARD then
    { renderer with
      ProjectionMatrix := getProjectionMatrix ops renderer.f_sar renderer.f_fovy
      ZoomMatrix := getZoomMatrix renderer.f_z
      ViewMatrix := ops.viewpoint_to_4x4 renderer.vp }
  else
    { renderer with
      ProjectionMatrix := identityM4
      ZoomMatrix := identityM4
      ViewMatrix := identityM4 }

/-- Modelled from the spec: the documented minimum of the supported FOV
range (`FIELD_OF_VIEW_DEGREES_MIN` of vout_helper.h, a header not under
src/). The boundary behaviour under verification does not depend on the
exact value. -/
def FIELD_OF_VIEW_DEGREES_MIN : ℚ := 20

/-- Modelled from the spec: the documented maximum of the supported FOV
range (`FIELD_OF_VIEW_DEGREES_MAX` of vout_helper.h, a header not under
src/). -/
def FIELD_OF_VIEW_DEGREES_MAX : ℚ := 150

/-- `UpdateFOVy`: derives the vertical FOV from the horizontal FOV and
the window aspect ratio. -/
def UpdateFOVy (ops : TrigOps) (renderer : RendererState) : RendererState :=
  { renderer with
    f_fovy := 2 * ops.atanf (ops.tanf (renderer.f_fovx / 2) / renderer.f_sar) }

/-- `UpdateZ`: computes the minimal camera distance `z_min` keeping the
sphere covering the viewport, zero below the 90-degree threshold,
otherwise linear in the FOV and clamped at `z_min`. -/
def UpdateZ (ops : TrigOps) (renderer : RendererState) : RendererState :=
  let tan_fovx_2 := ops.tanf (renderer.f_fovx / 2)
  let tan_fovy_2 := ops.tanf (renderer.f_fovy / 2)
  let z_min := -SPHERE_RADIUS /
      ops.sinf (ops.atanf (ops.sqrtf
        (tan_fovx_2 * tan_fovx_2 + tan_fovy_2 * tan_fovy_2)))
  let z_thresh : ℚ := 90
  if renderer.f_fovx ≤ z_thresh * ops.pi / 180 then
    { renderer with f_z := 0 }
  else
    let f := z_min / ((FIELD_OF_VIEW_DEGREES_MAX - z_thresh) * ops.pi / 180)
    let z := f * renderer.f_fovx - f * z_thresh * ops.pi / 180
    { renderer with f_z := if z < z_min then z_min else z }

/-- The return status of `vlc_gl_renderer_SetViewpoint`. -/
inductive vlc_status
  | VLC_SUCCESS
  | VLC_EBADVAR
  deriving DecidableEq, Repr

/-- The state update performed by `vlc_gl_renderer_SetViewpoint` once
the FOV check has passed and before `getViewpointMatrixes` is called:
the viewpoint is reversed into a world transform, and when the
horizontal FOV changed by at least 0.001 radians the FOV and zoom state
are recomputed. -/
def SetViewpointUpdatedState (ops : TrigOps) (renderer : RendererState)
    (p_vp : vlc_viewpoint_t) : RendererState :=
  let f_fovx := p_vp.fov * ops.pi / 180
  let renderer := { renderer with vp := ops.viewpoint_reverse p_vp }
  if |f_fovx - renderer.f_fovx| ≥ 1/1000 then
    UpdateZ ops (UpdateFOVy ops { renderer with f_fovx := f_fovx })
  else renderer

/-- `vlc_gl_renderer_SetViewpoint`: returns `VLC_EBADVAR` and leaves the
state untouched when `p_vp->fov > FIELD_OF_VIEW_DEGREES_MAX || p_vp->fov
< FIELD_OF_VIEW_DEGREES_MIN`; otherwise updates the viewpoint state and
recomputes the view/projection/zoom matrices. -/
def vlc_gl_renderer_SetViewpoint (ops : TrigOps) (renderer : RendererState)
    (p_vp : vlc_viewpoint_t) : vlc_status × RendererState :=
  if p_vp.fov > FIELD_OF_VIEW_DEGREES_MAX
      ∨ p_vp.fov < FIELD_OF_VIEW_DEGREES_MIN then
    (.VLC_EBADVAR, renderer)
  else
    let r := SetViewpointUpdatedState ops renderer p_vp
    (.VLC_SUCCESS, getViewpointMatrixes ops r r.fmt_projection_mode)

/-! ### Per-frame crop cache (vlc_gl_renderer_Prepare, renderer.c) -/

/-- The visible-region fields of a picture's `video_format_t` compared
by `vlc_gl_renderer_Prepare` (and the renderer's `last_source` cache). -/
structure SourceRegion where
  i_x_offset : ℕ
  i_y_offset : ℕ
  i_visible_width : ℕ
  i_visible_height : ℕ
  deriving DecidableEq, Repr

/-- The renderer fields used by `vlc_gl_renderer_Prepare`: the interop
texture scale factors (`texs[j].w` and `texs[j].h` rationals), the
allocated texture sizes, the cached source region and the cached
`TexCoordsMap` matrices (indexed by texture unit; the C array is zeroed
by `memset` before being filled for the first `tex_count` units). -/
structure PrepState where
  tex_count : ℕ
  texs_w : List (ℕ × ℕ)
  texs_h : List (ℕ × ℕ)
  tex_width : List ℚ
  tex_height : List ℚ
  last_source : SourceRegion
  TexCoordsMap : ℕ → M3

/-- The crop-to-texture matrix computed by `vlc_gl_renderer_Prepare` for
texture unit `j` (column-major 3x3; the C code only writes four entries
of the zeroed matrix, in particular entry 8 stays 0). -/
def texCoordsMatrix (st : PrepState) (source : SourceRegion) (j : ℕ) : M3 :=
  let w := st.texs_w.getD j (1, 1)
  let h := st.texs_h.getD j (1, 1)
  let scale_w := (w.1 : ℚ) / (w.2 : ℚ) / st.tex_width.getD j 1
  let scale_h := (h.1 : ℚ) / (h.2 : ℚ) / st.tex_height.getD j 1
  let left := (source.i_x_offset : ℚ) * scale_w
  let top := (source.i_y_offset : ℚ) * scale_h
  let right := ((source.i_x_offset : ℚ) + source.i_visible_width) * scale_w
  let bottom := ((source.i_y_offset : ℚ) + source.i_visible_height) * scale_h
  m3 [right - left, 0, 0,
      0, bottom - top, 0,
      left, top, 0]

/-- The whole `TexCoordsMap` array after recomputation: `memset` to zero
then one matrix per texture unit `j < tex_count`. -/
def recomputeTexCoordsMaps (st : PrepState) (source : SourceRegion) :
    ℕ → M3 :=
  fun j => if j < st.tex_count then texCoordsMatrix st source j
           else m3 [0, 0, 0, 0, 0, 0, 0, 0, 0]

/-- The cache-maintenance part of `vlc_gl_renderer_Prepare`: when any of
the four visible-region fields differs from `last_source`, the
`TexCoordsMap` matrices are recomputed and the region is cached;
otherwise the state is untouched. (The trailing call to the external
`update_textures` upload hook does not touch this state.) -/
def vlc_gl_renderer_Prepare (st : PrepState) (source : SourceRegion) :
    PrepState :=
  if source.i_x_offset ≠ st.last_source.i_x_offset
      ∨ source.i_y_offset ≠ st.last_source.i_y_offset
      ∨ source.i_visible_width ≠ st.last_source.i_visible_width
      ∨ source.i_visible_height ≠ st.last_source.i_visible_height then
    { st with
      TexCoordsMap := recomputeTexCoordsMaps st source
      last_source := source }
  else st

/-! ### ShaderSourceGenerator (fragment_shaders.c)

`vlc_fourcc_IsYUV` and `vlc_fourcc_GetChromaDescription` are VLC core
lookup tables outside the verified sources; the shader generator is
embedded with their results (`is_yuv`, the optional chroma description)
as inputs, exactly the values the C function reads from them. The
libplacebo blocks are compiled out (`HAVE_LIBPLACEBO` undefined) and
`vlc_memstream` allocation failure is not modelled. -/

/-- The texture targets accepted by `opengl_fragment_shader_init`. -/
inductive GlTexTarget
  | GL_TEXTURE_2D
  | GL_TEXTURE_RECTANGLE
  | GL_TEXTURE_EXTERNAL_OES
  deriving DecidableEq, Repr

/-- The interop fields read by the shader generator: whether the
`GL_ARB_texture_rg` extension token is present (`oneplane_texfmt`
selection) and the number of texture units. -/
structure InteropState where
  has_texture_rg : Bool
  tex_count : ℕ

/-- `opengl_init_swizzle`: selects the per-texture swizzle strings from
the plane count and, for single-plane packed formats, the exact chroma
code; an unrecognized single-plane code is `assert(!"missing chroma")`
followed by `VLC_EGENERIC`, embedded as `none`. -/
def opengl_init_swizzle (interop : InteropState) (chroma : ℕ)
    (desc : vlc_chroma_description_t) : Option (List String) :=
  let oneplane_texfmt_is_red := interop.has_texture_rg
  if desc.plane_count = 3 then some ["r", "r", "r"]
  else if desc.plane_count = 2 then
    (if oneplane_texfmt_is_red then some ["r", "rg"] else some ["x", "xa"])
  else if desc.plane_count = 1 then
    (if chroma = VLC_CODEC_UYVY then some ["grb"]
     else if chroma = VLC_CODEC_YUYV then some ["rga"]
     else if chroma = VLC_CODEC_VYUY then some ["gbr"]
     else if chroma = VLC_CODEC_YVYU then some ["rag"]
     else none)
  else some []

/-- The `(sampler, lookup)` strings selected by the `tex_target` switch
of `opengl_fragment_shader_init`. -/
def sampler_lookup (tex_target : GlTexTarget) : String × String :=
  match tex_target with
  | .GL_TEXTURE_EXTERNAL_OES => ("samplerExternalOES", "texture2D")
  | .GL_TEXTURE_2D => ("sampler2D", "texture2D")
  | .GL_TEXTURE_RECTANGLE => ("sampler2DRect", "texture2DRect")

/-- The fixed shader template returned by `xyz12_shader_init`. -/
def xyz12_shader_template : String :=
  String.join
    ["uniform sampler2D Texture0;",
     "uniform vec4 xyz_gamma = vec4(2.6);",
     "uniform vec4 rgb_gamma = vec4(1.0/2.2);",
     "uniform mat4 matrix_xyz_rgb = mat4(",
     "    3.240454 , -0.9692660, 0.0556434, 0.0,",
     "   -1.5371385,  1.8760108, -0.2040259, 0.0,",
     "    -0.4985314, 0.0415560, 1.0572252,  0.0,",
     "    0.0,      0.0,         0.0,        1.0 ",
     " );",
     "uniform mat4 TransformMatrix;\n",
     "uniform mat4 OrientationMatrix;\n",
     "uniform mat3 TexCoordsMap0;\n",
     "vec4 vlc_texture(vec2 pic_coords)\n",
     "\x7b ",
     " vec4 v_in, v_out;",
     " vec3 pic_hcoords = vec3((TransformMatrix * OrientationMatrix * vec4(pic_coords, 0.0, 1.0)).st, 1.0);\n",
     " vec2 tex_coords = (TexCoordsMap0 * pic_hcoords).st;\n",
     " v_in  = texture2D(Texture0, tex_coords);\n",
     " v_in = pow(v_in, xyz_gamma);",
     " v_out = matrix_xyz_rgb * v_in ;",
     " v_out = pow(v_out, rgb_gamma) ;",
     " v_out = clamp(v_out, 0.0, 1.0) ;",
     " return v_out;",
     "\x7d\n"]

/-- The text emitted for one texture unit of a YUV shader: the
coordinate mapping, the optional texel-space de-normalisation for
rectangle textures, the texture fetch, and one `pixel[idx] = texel.c`
line per swizzle character (with `color_idx` counting across units). -/
def yuvTexelBlock (lookup : String) (rect : Bool) (i : ℕ) (swizzle : String)
    (color_idx : ℕ) : String :=
  " tex_coords = (TexCoordsMap" ++ toString i ++ " * pic_hcoords).st;\n"
  ++ (if rect then
        " tex_coords = vec2(tex_coords.x * TexSize" ++ toString i ++ ".x,\n"
        ++ "                   tex_coords.y * TexSize" ++ toString i ++ ".y);\n"
      else "")
  ++ " texel = " ++ lookup ++ "(Texture" ++ toString i ++ ", tex_coords);\n"
  ++ String.join ((List.range swizzle.length).map fun j =>
       " pixel[" ++ toString (color_idx + j) ++ "] = texel."
       ++ (swizzle.toList.getD j ' ').toString ++ ";\n")

/-- The YUV sampling body of the generated fragment shader. -/
def yuvBody (lookup : String) (rect : Bool) (swizzle_per_tex : List String)
    (tex_count : ℕ) : String :=
  let blocks := (List.range tex_count).foldl
    (fun (acc : String × ℕ) i =>
      let swizzle := swizzle_per_tex.getD i ""
      (acc.1 ++ yuvTexelBlock lookup rect i swizzle acc.2,
       acc.2 + swizzle.length))
    ("", 0)
  " vec4 texel;\n vec4 pixel = vec4(0.0, 0.0, 0.0, 1.0);\n"
  ++ blocks.1
  ++ " vec4 result = ConvMatrix * pixel;\n"

/-- `opengl_fragment_shader_init`: returns the generated `vlc_texture`
fragment-shader source, or `none` (the C function returns `NULL`) when
the chroma has no description or YUV swizzle selection fails. -/
def opengl_fragment_shader_init (interop : InteropState)
    (tex_target : GlTexTarget) (chroma : ℕ)
    (is_yuv : Bool) (desc : Option vlc_chroma_description_t) :
    Option String :=
  match desc with
  | none => none
  | some desc =>
    if chroma = VLC_CODEC_XYZ12 then some xyz12_shader_template
    else
      let swz : Option (List String) :=
        if is_yuv then opengl_init_swizzle interop chroma desc else some []
      match swz with
      | none => none
      | some swizzle_per_tex =>
        let sl := sampler_lookup tex_target
        let sampler := sl.1
        let lookup := sl.2
        let rect : Bool := tex_target = .GL_TEXTURE_RECTANGLE
        some
          ("uniform mat4 TransformMatrix;\nuniform mat4 OrientationMatrix;\n"
          ++ String.join ((List.range interop.tex_count).map fun i =>
               "uniform " ++ sampler ++ " Texture" ++ toString i ++ ";\n"
               ++ "uniform mat3 TexCoordsMap" ++ toString i ++ ";\n")
          ++ (if rect then
                String.join ((List.range interop.tex_count).map fun i =>
                  "uniform vec2 TexSize" ++ toString i ++ ";\n")
              else "")
          ++ (if is_yuv then "uniform mat4 ConvMatrix;\n" else "")
          ++ "uniform vec4 FillColor;\n"
          ++ "vec4 vlc_texture(vec2 pic_coords) \x7b\n"
          ++ " vec3 pic_hcoords = vec3((TransformMatrix * OrientationMatrix * vec4(pic_coords, 0.0, 1.0)).st, 1.0);\n"
          ++ " vec2 tex_coords;\n"
          ++ (if is_yuv then
                yuvBody lookup rect swizzle_per_tex interop.tex_count
              else
                " tex_coords = (TexCoordsMap0 * pic_hcoords).st;\n"
                ++ " vec4 result = " ++ lookup ++ "(Texture0, tex_coords);\n")
          ++ " return result * FillColor;\n\x7d\n")

/-! ### Concrete instances used to exercise the theorems -/

/-- A concrete `TrigOps` instance (any mathematical functions are
admissible; the renderer treats them as opaque). -/
def trigOps0 : TrigOps :=
  { pi := 0
    tanf := fun _ => 0
    atanf := fun _ => 0
    sinf := fun _ => 0
    sqrtf := fun _ => 0
    sincosf := fun _ => (0, 1)
    viewpoint_reverse := id
    viewpoint_to_4x4 := fun _ => identityM4 }

/-- A concrete renderer state. -/
def rendererState0 : RendererState :=
  { f_sar := 1
    f_fovx := 0
    f_fovy := 0
    f_z := 0
    vp := ⟨0, 0, 0, 0⟩
    fmt_projection_mode := PROJECTION_MODE_EQUIRECTANGULAR
    ProjectionMatrix := identityM4
    ZoomMatrix := identityM4
    ViewMatrix := identityM4 }

/-- A concrete prepare-path state with one texture unit and a 16x16
texture caching the visible region (0, 0, 16, 16). -/
def prepState0 : PrepState :=
  { tex_count := 1
    texs_w := [(1, 1)]
    texs_h := [(1, 1)]
    tex_width := [16]
    tex_height := [16]
    last_source := ⟨0, 0, 16, 16⟩
    TexCoordsMap := fun _ => m3 [1, 0, 0, 0, 1, 0, 0, 0, 0] }

/-- The chroma description of `VLC_CODEC_I420_10L` (3 planes, 2 bytes
per sample, 10 significant bits stored on the LSB). -/
def desc_I420_10L : vlc_chroma_description_t := ⟨3, 2, 10⟩

/-- The chroma description of `VLC_CODEC_Y211` (single packed plane). -/
def desc_Y211 : vlc_chroma_description_t := ⟨1, 4, 8⟩

/-- Formalisation of claim C2's wording, used for its refutation: the
matrix obtained from `m` by scaling its first three mathematical rows by
`r` — in the column-major array, the entries whose index is not 3 mod 4,
including the fourth-column entries 12, 13 and 14. -/
def claim_row_scaled (m : M4) (r : ℚ) : M4 :=
  fun i => if (i : ℕ) % 4 < 3 then m i * r else m i

/-! ## Theorems -/

/-- Helper: the U/V column-swap index permutation is an involution. -/
theorem swap_uv_idx_involutive : ∀ i : Fin 16, swap_uv_idx (swap_uv_idx i) = i := by
  decide

/-- Helper: the length of a `flatMap` over `List.range` whose blocks all
have length `k`. -/
theorem length_range_flatMap {α : Type} (n k : ℕ) (f : ℕ → List α)
    (h : ∀ a, (f a).length = k) :
    ((List.range n).flatMap f).length = n * k := by
  induction n with
  | zero => simp
  | succ n ih => simp [List.range_succ, ih, h, Nat.succ_mul]

/-- Helper: the pointwise value of the scaling step of
`renderer_yuv_base_init` when the format stores 2 bytes per sample with
the samples on the LSB. -/
theorem scaled_conv_matrix_eq (chroma : ℕ) (desc : vlc_chroma_description_t)
    (space : video_color_space_t)
    (h : desc.pixel_size = 2 ∧ chroma ≠ VLC_CODEC_P010 ∧ chroma ≠ VLC_CODEC_P016)
    (i : Fin 16) :
    scaled_conv_matrix chroma desc space i =
      if (i : ℕ) < 12 then
        init_conv_matrix space COLOR_RANGE_LIMITED i * yuv_range_correction desc
      else init_conv_matrix space COLOR_RANGE_LIMITED i := by
  unfold scaled_conv_matrix scaled_conv_matrix_range
  rw [if_pos h]

/-- C5: for every (color space, color range) pair, the 4x4 conversion
matrix produced by `init_conv_matrix` has bottom row exactly [0,0,0,1]:
in column-major storage, the entries at indices 3, 7, 11, 15 are 0, 0,
0, 1. -/
theorem conv_matrix_bottom_row (space : video_color_space_t)
    (range : video_color_range_t) :
    init_conv_matrix space range 3 = 0 ∧
    init_conv_matrix space range 7 = 0 ∧
    init_conv_matrix space range 11 = 0 ∧
    init_conv_matrix space range 15 = 1 :=
  ⟨rfl, rfl, rfl, rfl⟩

/-- C7: applying the plane-swap transform (swap of matrix columns 1 and
2, performed when the format stores chroma in swapped order) twice to
any conversion matrix returns the original matrix. -/
theorem swapUV_involutive (matrix : M4) : swapUV (swapUV matrix) = matrix := by
  funext i
  show matrix (swap_uv_idx (swap_uv_idx i)) = matrix i
  rw [swap_uv_idx_involutive]

/-- C3: the conversion matrix installed by the fragment-shader generator
for a YUV format is computed for `COLOR_RANGE_LIMITED`, whatever color
range the format descriptor carries: two formats differing only in color
range yield the same matrix. -/
theorem conv_matrix_ignores_color_range (fmt : video_format_t)
    (desc : vlc_chroma_description_t) (r₁ r₂ : video_color_range_t) :
    installed_conv_matrix { fmt with color_range := r₁ } desc =
      installed_conv_matrix { fmt with color_range := r₂ } desc ∧
    installed_conv_matrix fmt desc =
      renderer_yuv_base_init_range fmt.i_chroma desc fmt.space
        COLOR_RANGE_LIMITED :=
  ⟨rfl, rfl⟩

/-- C2 is false as stated: for the 10-bit low-bit 2-byte format
I420_10L, the matrix computed by `renderer_yuv_base_init` differs at
entry 12 (row 0 of the fourth, offset column) from the matrix whose
first three rows are all scaled by `(2^16-1)/(2^10-1)`: the C loop
scales only the first 12 entries of the column-major array, i.e. the
first three columns, leaving the offset column untouched. -/
theorem yuv_scale_not_rows :
    renderer_yuv_base_init VLC_CODEC_I420_10L desc_I420_10L
        COLOR_SPACE_BT709 12 ≠
      claim_row_scaled (init_conv_matrix COLOR_SPACE_BT709 COLOR_RANGE_LIMITED)
        (yuv_range_correction desc_I420_10L) 12 := by
  have hswap : swap_uv_chroma VLC_CODEC_I420_10L = false := by decide
  have hL : renderer_yuv_base_init VLC_CODEC_I420_10L desc_I420_10L
      COLOR_SPACE_BT709 12 =
      init_conv_matrix COLOR_SPACE_BT709 COLOR_RANGE_LIMITED 12 := by
    unfold renderer_yuv_base_init renderer_yuv_base_init_range
    simp only [hswap, Bool.false_eq_true, if_false]
    rw [show scaled_conv_matrix_range VLC_CODEC_I420_10L desc_I420_10L
          COLOR_SPACE_BT709 COLOR_RANGE_LIMITED =
        scaled_conv_matrix VLC_CODEC_I420_10L desc_I420_10L COLOR_SPACE_BT709
        from rfl]
    rw [scaled_conv_matrix_eq _ _ _ ⟨rfl, by decide, by decide⟩ 12,
        if_neg (by decide)]
  have hR : claim_row_scaled
      (init_conv_matrix COLOR_SPACE_BT709 COLOR_RANGE_LIMITED)
      (yuv_range_correction desc_I420_10L) 12 =
      init_conv_matrix COLOR_SPACE_BT709 COLOR_RANGE_LIMITED 12
        * yuv_range_correction desc_I420_10L := by
    unfold claim_row_scaled
    rw [if_pos (by decide)]
  rw [hL, hR]
  have hb : init_conv_matrix COLOR_SPACE_BT709 COLOR_RANGE_LIMITED 12 =
      -932203/958125 := by
    norm_num [init_conv_matrix, space_matrix_of, range_matrix_of, MATRIX_BT709,
      MATRIX_YUV_TO_RGB, MATRIX_YUV_TO_RGB_, MATRIX_COLOR_RANGE_LIMITED,
      List.range_succ, show ((12 : Fin 16) : ℕ) = 12 from rfl]
  have hr : yuv_range_correction desc_I420_10L = 21845/341 := by
    norm_num [yuv_range_correction, desc_I420_10L]
  rw [hb, hr]
  norm_num

/-- C2 (amended): for every YUV format stored with 2 bytes per sample
where the samples occupy the low bits, the builder scales the first
three columns of the conversion matrix (the Y/U/V coefficient entries
0..11 of the column-major array; equivalently it post-multiplies by
diag(r,r,r,1), leaving the offset column unscaled) by
`r = (2^16-1)/(2^bit_depth-1)`, and the fourth row stays [0,0,0,1]. -/
theorem yuv_scale_columns (chroma : ℕ) (desc : vlc_chroma_description_t)
    (space : video_color_space_t)
    (h2 : desc.pixel_size = 2) (hA : chroma ≠ VLC_CODEC_P010)
    (hB : chroma ≠ VLC_CODEC_P016) :
    (∀ i : Fin 16, (i : ℕ) < 12 →
        scaled_conv_matrix chroma desc space i =
          init_conv_matrix space COLOR_RANGE_LIMITED i
            * yuv_range_correction desc) ∧
    (∀ i : Fin 16, 12 ≤ (i : ℕ) →
        scaled_conv_matrix chroma desc space i =
          init_conv_matrix space COLOR_RANGE_LIMITED i) ∧
    scaled_conv_matrix chroma desc space 3 = 0 ∧
    scaled_conv_matrix chroma desc space 7 = 0 ∧
    scaled_conv_matrix chroma desc space 11 = 0 ∧
    scaled_conv_matrix chroma desc space 15 = 1 := by
  have h := scaled_conv_matrix_eq chroma desc space ⟨h2, hA, hB⟩
  refine ⟨fun i hi => ?_, fun i hi => ?_, ?_, ?_, ?_, ?_⟩
  · rw [h i, if_pos hi]
  · rw [h i, if_neg (by omega)]
  · rw [h 3, if_pos (by decide)]
    have hb : init_conv_matrix space COLOR_RANGE_LIMITED 3 = 0 := rfl
    rw [hb, zero_mul]
  · rw [h 7, if_pos (by decide)]
    have hb : init_conv_matrix space COLOR_RANGE_LIMITED 7 = 0 := rfl
    rw [hb, zero_mul]
  · rw [h 11, if_pos (by decide)]
    have hb : init_conv_matrix space COLOR_RANGE_LIMITED 11 = 0 := rfl
    rw [hb, zero_mul]
  · rw [h 15, if_neg (by decide)]
    exact rfl

/-- Witness for C2 (amended) at the concrete format I420_10L/BT709. -/
theorem yuv_scale_columns_witness :
    (∀ i : Fin 16, (i : ℕ) < 12 →
        scaled_conv_matrix VLC_CODEC_I420_10L desc_I420_10L COLOR_SPACE_BT709 i =
          init_conv_matrix COLOR_SPACE_BT709 COLOR_RANGE_LIMITED i
            * yuv_range_correction desc_I420_10L) ∧
    (∀ i : Fin 16, 12 ≤ (i : ℕ) →
        scaled_conv_matrix VLC_CODEC_I420_10L desc_I420_10L COLOR_SPACE_BT709 i =
          init_conv_matrix COLOR_SPACE_BT709 COLOR_RANGE_LIMITED i) ∧
    scaled_conv_matrix VLC_CODEC_I420_10L desc_I420_10L COLOR_SPACE_BT709 3 = 0 ∧
    scaled_conv_matrix VLC_CODEC_I420_10L desc_I420_10L COLOR_SPACE_BT709 7 = 0 ∧
    scaled_conv_matrix VLC_CODEC_I420_10L desc_I420_10L COLOR_SPACE_BT709 11 = 0 ∧
    scaled_conv_matrix VLC_CODEC_I420_10L desc_I420_10L COLOR_SPACE_BT709 15 = 1 :=
  yuv_scale_columns VLC_CODEC_I420_10L desc_I420_10L COLOR_SPACE_BT709
    rfl (by decide) (by decide)

/-- C4 is false as stated: with the per-axis padding fractions padW =
padH = 2/5 (inside the claimed range [0, 0.5)), `BuildCube` emits the UV
coordinate 2/3 + 2/5 = 16/15 > 1, so not every UV coordinate lies in
[0,1]². -/
theorem cube_uv_escapes_unit_square :
    ¬ (∀ x ∈ (BuildCube (2/5) (2/5)).textureCoord, 0 ≤ x ∧ x ≤ 1) := by
  intro h
  have hm : ((2:ℚ)/3 + 2/5) ∈ (BuildCube (2/5) (2/5)).textureCoord := by
    simp [BuildCube]
  have := (h _ hm).2
  norm_num at this

/-- C4 (amended): for every per-axis padding pair with padW in [0, 1/3]
and padH in [0, 1/2], every UV coordinate emitted by `BuildCube` lies
within [0,1]² (every entry of the UV array is in [0,1]). The upper bound
1/3 on padW is forced: the atlas emits the U coordinates 2/3 + padW and
1/3 - padW. -/
theorem cube_uv_in_unit_square (padW padH : ℚ)
    (hW0 : 0 ≤ padW) (hW1 : padW ≤ 1/3) (hH0 : 0 ≤ padH) (hH1 : padH ≤ 1/2) :
    ∀ x ∈ (BuildCube padW padH).textureCoord, 0 ≤ x ∧ x ≤ 1 := by
  intro x hx
  simp only [BuildCube, List.mem_cons, List.not_mem_nil, or_false] at hx
  rcases hx with rfl|rfl|rfl|rfl|rfl|rfl|rfl|rfl|rfl|rfl|rfl|rfl|rfl|rfl|rfl|rfl|rfl|rfl|rfl|rfl|rfl|rfl|rfl|rfl|rfl|rfl|rfl|rfl|rfl|rfl|rfl|rfl|rfl|rfl|rfl|rfl|rfl|rfl|rfl|rfl|rfl|rfl|rfl|rfl|rfl|rfl|rfl|rfl
  all_goals constructor <;> linarith

/-- Witness for C4 (amended) at padW = padH = 1/4. -/
theorem cube_uv_in_unit_square_witness :
    (0:ℚ) ≤ 1/4 ∧ (1:ℚ)/4 ≤ 1/3 ∧
    ∀ x ∈ (BuildCube (1/4) (1/4)).textureCoord, 0 ≤ x ∧ x ≤ 1 :=
  ⟨by norm_num, by norm_num,
   cube_uv_in_unit_square (1/4) (1/4) (by norm_num) (by norm_num)
     (by norm_num) (by norm_num)⟩

/-- C6: `BuildSphere` with its 128 latitude/longitude bands produces
exactly (128+1)² vertices (the vertex array holds 3·(128+1)² floats) and
exactly 6·128² indices, and — whenever the sincos oracle satisfies the
Pythagorean identity, which abstracts "within floating tolerance" —
every produced vertex lies at unit distance from the origin. -/
theorem sphere_vertexCoord_length (ops : TrigOps) (B C : ℕ) :
    (BuildSphereBands ops B C).vertexCoord.length = (B + 1) * ((C + 1) * 3) := by
  have hinner : ∀ lat, ((List.range (C + 1)).flatMap fun lon =>
      let v := sphereVertex ops B C lat lon
      [v.1, v.2.1, v.2.2]).length = (C + 1) * 3 :=
    fun lat => length_range_flatMap (C + 1) 3 _ (fun lon => rfl)
  exact length_range_flatMap (B + 1) ((C + 1) * 3) _ hinner

theorem sphere_indices_length (ops : TrigOps) (B C : ℕ) :
    (BuildSphereBands ops B C).indices.length = B * (C * 6) := by
  have hinner : ∀ lat, ((List.range C).flatMap fun lon =>
      sphereQuadIndices C lat lon).length = C * 6 :=
    fun lat => length_range_flatMap C 6 _ (fun lon => rfl)
  exact length_range_flatMap B (C * 6) _ hinner

theorem sphere_counts_and_unit_radius (ops : TrigOps)
    (hsc : ∀ t, (ops.sincosf t).1 ^ 2 + (ops.sincosf t).2 ^ 2 = 1) :
    (BuildSphere ops).nbVertices = (128 + 1) ^ 2 ∧
    (BuildSphere ops).vertexCoord.length = 3 * (128 + 1) ^ 2 ∧
    (BuildSphere ops).nbIndices = 6 * 128 ^ 2 ∧
    (BuildSphere ops).indices.length = 6 * 128 ^ 2 ∧
    ∀ lat lon : ℕ,
      (sphereVertex ops 128 128 lat lon).1 ^ 2 +
        (sphereVertex ops 128 128 lat lon).2.1 ^ 2 +
        (sphereVertex ops 128 128 lat lon).2.2 ^ 2 = 1 := by
  refine ⟨by norm_num [BuildSphere, BuildSphereBands], ?_,
    by norm_num [BuildSphere, BuildSphereBands], ?_, ?_⟩
  · simp only [BuildSphere]
    rw [sphere_vertexCoord_length]
    norm_num
  · simp only [BuildSphere]
    rw [sphere_indices_length]
    norm_num
  · intro lat lon
    have h1 := hsc ((lat : ℚ) * ops.pi / (128 : ℕ))
    have h2 := hsc ((lon : ℚ) * 2 * ops.pi / (128 : ℕ))
    simp only [sphereVertex, SPHERE_RADIUS, one_mul]
    linear_combination (ops.sincosf ((lat : ℚ) * ops.pi / (128 : ℕ))).1 ^ 2 * h2 + h1

/-- Witness for C6 with a concrete sincos oracle satisfying the
Pythagorean identity. -/
theorem sphere_counts_and_unit_radius_witness :
    (∀ t, (trigOps0.sincosf t).1 ^ 2 + (trigOps0.sincosf t).2 ^ 2 = 1) ∧
    (BuildSphere trigOps0).nbVertices = (128 + 1) ^ 2 ∧
    (BuildSphere trigOps0).vertexCoord.length = 3 * (128 + 1) ^ 2 ∧
    (BuildSphere trigOps0).nbIndices = 6 * 128 ^ 2 ∧
    (BuildSphere trigOps0).indices.length = 6 * 128 ^ 2 ∧
    ∀ lat lon : ℕ,
      (sphereVertex trigOps0 128 128 lat lon).1 ^ 2 +
        (sphereVertex trigOps0 128 128 lat lon).2.1 ^ 2 +
        (sphereVertex trigOps0 128 128 lat lon).2.2 ^ 2 = 1 :=
  ⟨fun t => by norm_num [trigOps0],
   sphere_counts_and_unit_radius trigOps0 (fun t => by norm_num [trigOps0])⟩

/-- C8: for every flat (non-immersive) projection mode — any mode other
than equirectangular and standard cubemap — `getViewpointMatrixes`
copies the identity array into the projection, zoom and view matrices. -/
theorem flat_projection_identity (ops : TrigOps) (renderer : RendererState)
    (mode : video_projection_mode_t)
    (h1 : mode ≠ PROJECTION_MODE_EQUIRECTANGULAR)
    (h2 : mode ≠ PROJECTION_MODE_CUBEMAP_LAYOUT_STANDARD) :
    (getViewpointMatrixes ops renderer mode).ProjectionMatrix = identityM4 ∧
    (getViewpointMatrixes ops renderer mode).ZoomMatrix = identityM4 ∧
    (getViewpointMatrixes ops renderer mode).ViewMatrix = identityM4 := by
  unfold getViewpointMatrixes
  rw [if_neg (by simp [h1, h2])]
  exact ⟨rfl, rfl, rfl⟩

/-- Witness for C8 at the rectangular projection mode. -/
theorem flat_projection_identity_witness :
    (getViewpointMatrixes trigOps0 rendererState0
        PROJECTION_MODE_RECTANGULAR).ProjectionMatrix = identityM4 ∧
    (getViewpointMatrixes trigOps0 rendererState0
        PROJECTION_MODE_RECTANGULAR).ZoomMatrix = identityM4 ∧
    (getViewpointMatrixes trigOps0 rendererState0
        PROJECTION_MODE_RECTANGULAR).ViewMatrix = identityM4 :=
  flat_projection_identity trigOps0 rendererState0 PROJECTION_MODE_RECTANGULAR
    (by decide) (by decide)

/-- C1 is false as stated: the FOV value sitting exactly at the
documented maximum boundary is accepted (the C check uses strict
comparisons `fov > MAX || fov < MIN`), while the claim says boundary
values are rejected with an InvalidParameter failure. -/
theorem setViewpoint_accepts_boundary_fov :
    vlc_viewpoint_t.fov ⟨0, 0, 0, 150⟩ = FIELD_OF_VIEW_DEGREES_MAX ∧
    (vlc_gl_renderer_SetViewpoint trigOps0 rendererState0 ⟨0, 0, 0, 150⟩).1 =
      vlc_status.VLC_SUCCESS := by
  refine ⟨rfl, ?_⟩
  unfold vlc_gl_renderer_SetViewpoint
  rw [if_neg]
  push_neg
  constructor <;> norm_num [FIELD_OF_VIEW_DEGREES_MAX, FIELD_OF_VIEW_DEGREES_MIN]

/-- C1 (amended): `vlc_gl_renderer_SetViewpoint` rejects with
`VLC_EBADVAR` (InvalidParameter), leaving the state untouched, exactly
the FOV values strictly outside the documented [min, max] range, and
accepts every FOV at or inside the boundary, returning success and
recomputing the view/projection/zoom state via `getViewpointMatrixes`
on the updated viewpoint state. -/
theorem setViewpoint_boundary (ops : TrigOps) (renderer : RendererState)
    (p_vp : vlc_viewpoint_t) :
    (p_vp.fov > FIELD_OF_VIEW_DEGREES_MAX ∨
        p_vp.fov < FIELD_OF_VIEW_DEGREES_MIN →
      vlc_gl_renderer_SetViewpoint ops renderer p_vp =
        (vlc_status.VLC_EBADVAR, renderer)) ∧
    (FIELD_OF_VIEW_DEGREES_MIN ≤ p_vp.fov →
      p_vp.fov ≤ FIELD_OF_VIEW_DEGREES_MAX →
      vlc_gl_renderer_SetViewpoint ops renderer p_vp =
        (vlc_status.VLC_SUCCESS,
         getViewpointMatrixes ops (SetViewpointUpdatedState ops renderer p_vp)
           (SetViewpointUpdatedState ops renderer p_vp).fmt_projection_mode)) := by
  constructor
  · intro h
    unfold vlc_gl_renderer_SetViewpoint
    rw [if_pos h]
  · intro hmin hmax
    unfold vlc_gl_renderer_SetViewpoint
    rw [if_neg (by push_neg; exact ⟨hmax, hmin⟩)]

/-- Witness for C1 (amended): fov = 151 is rejected with the state kept,
fov = 80 is accepted with the matrices recomputed. -/
theorem setViewpoint_boundary_witness :
    vlc_gl_renderer_SetViewpoint trigOps0 rendererState0 ⟨0, 0, 0, 151⟩ =
      (vlc_status.VLC_EBADVAR, rendererState0) ∧
    vlc_gl_renderer_SetViewpoint trigOps0 rendererState0 ⟨0, 0, 0, 80⟩ =
      (vlc_status.VLC_SUCCESS,
       getViewpointMatrixes trigOps0
         (SetViewpointUpdatedState trigOps0 rendererState0 ⟨0, 0, 0, 80⟩)
         (SetViewpointUpdatedState trigOps0 rendererState0
           ⟨0, 0, 0, 80⟩).fmt_projection_mode) :=
  ⟨(setViewpoint_boundary trigOps0 rendererState0 ⟨0, 0, 0, 151⟩).1
     (by norm_num [FIELD_OF_VIEW_DEGREES_MAX]),
   (setViewpoint_boundary trigOps0 rendererState0 ⟨0, 0, 0, 80⟩).2
     (by norm_num [FIELD_OF_VIEW_DEGREES_MIN])
     (by norm_num [FIELD_OF_VIEW_DEGREES_MAX])⟩

/-- C9: for every single-plane packed chroma code that is in the YUV
family but is not one of UYVY, YUYV, VYUY, YVYU, `opengl_init_swizzle`
fails with `VLC_EGENERIC` and `opengl_fragment_shader_init` returns no
shader text. -/
theorem unknown_packed_chroma_fails (interop : InteropState)
    (tex_target : GlTexTarget) (chroma : ℕ)
    (desc : vlc_chroma_description_t)
    (hplanes : desc.plane_count = 1)
    (h1 : chroma ≠ VLC_CODEC_UYVY) (h2 : chroma ≠ VLC_CODEC_YUYV)
    (h3 : chroma ≠ VLC_CODEC_VYUY) (h4 : chroma ≠ VLC_CODEC_YVYU)
    (h5 : chroma ≠ VLC_CODEC_XYZ12) :
    opengl_init_swizzle interop chroma desc = none ∧
    opengl_fragment_shader_init interop tex_target chroma true (some desc) =
      none := by
  have hsw : opengl_init_swizzle interop chroma desc = none := by
    simp [opengl_init_swizzle, hplanes, h1, h2, h3, h4]
  refine ⟨hsw, ?_⟩
  simp [opengl_fragment_shader_init, h5, hsw]

/-- Witness for C9 at the real single-plane packed YUV code Y211. -/
theorem unknown_packed_chroma_fails_witness :
    opengl_init_swizzle ⟨true, 1⟩ VLC_CODEC_Y211 desc_Y211 = none ∧
    opengl_fragment_shader_init ⟨true, 1⟩ GlTexTarget.GL_TEXTURE_2D
      VLC_CODEC_Y211 true (some desc_Y211) = none :=
  unknown_packed_chroma_fails ⟨true, 1⟩ GlTexTarget.GL_TEXTURE_2D
    VLC_CODEC_Y211 desc_Y211 rfl (by decide) (by decide) (by decide)
    (by decide) (by decide)

/-- C10: `vlc_gl_renderer_Prepare` leaves the cached `TexCoordsMap`
matrices (and the whole cached state) unchanged when the picture's
visible region equals the cached one, and recomputes them (and caches
the new region) exactly when one of the four region fields differs. -/
theorem prepare_texcoords_cache (st : PrepState) (source : SourceRegion) :
    (source.i_x_offset = st.last_source.i_x_offset ∧
     source.i_y_offset = st.last_source.i_y_offset ∧
     source.i_visible_width = st.last_source.i_visible_width ∧
     source.i_visible_height = st.last_source.i_visible_height →
       vlc_gl_renderer_Prepare st source = st) ∧
    (¬ (source.i_x_offset = st.last_source.i_x_offset ∧
        source.i_y_offset = st.last_source.i_y_offset ∧
        source.i_visible_width = st.last_source.i_visible_width ∧
        source.i_visible_height = st.last_source.i_visible_height) →
       (vlc_gl_renderer_Prepare st source).TexCoordsMap =
         recomputeTexCoordsMaps st source ∧
       (vlc_gl_renderer_Prepare st source).last_source = source) := by
  constructor
  · intro h
    unfold vlc_gl_renderer_Prepare
    rw [if_neg (by tauto)]
  · intro h
    unfold vlc_gl_renderer_Prepare
    rw [if_pos (by tauto)]
    exact ⟨rfl, rfl⟩

/-- Witness for C10: a frame with the cached visible region leaves the
state untouched; a frame whose x offset differs updates the cache. -/
theorem prepare_texcoords_cache_witness :
    vlc_gl_renderer_Prepare prepState0 ⟨0, 0, 16, 16⟩ = prepState0 ∧
    (vlc_gl_renderer_Prepare prepState0 ⟨1, 0, 16, 16⟩).last_source =
      ⟨1, 0, 16, 16⟩ ∧
    (vlc_gl_renderer_Prepare prepState0 ⟨1, 0, 16, 16⟩).TexCoordsMap =
      recomputeTexCoordsMaps prepState0 ⟨1, 0, 16, 16⟩ :=
  ⟨(prepare_texcoords_cache prepState0 ⟨0, 0, 16, 16⟩).1
     ⟨rfl, rfl, rfl, rfl⟩,
   ((prepare_texcoords_cache prepState0 ⟨1, 0, 16, 16⟩).2 (by decide)).2,
   ((prepare_texcoords_cache prepState0 ⟨1, 0, 16, 16⟩).2 (by decide)).1⟩

end VlcGl
